import Mathlib

/-!
Shallow embedding of the image-viewer application (src/main.py), the revision
the specification describes: wrap-around swipe navigation, fresh decode from
disk on every swipe, and a crop-commit handler.  (src/app.py is an earlier
revision of the same program: its swipe handlers clamp instead of wrapping and
it pre-decodes the whole gallery; where the two differ, main.py is the
behavior modeled here, matching the spec's normative text.)

The PIL image library is modeled symbolically: an image value records how it
was produced (decoded from a path, rotated, or cropped), and its pixel size is
computed from that history given an environment assigning native sizes to
paths.  Widget coordinates (flet uses numbers for left/top/width/height) are
modeled as integers; fields that flet leaves unset (`None`) are `Option`s.
Handlers that can raise an uncaught Python exception return a `PyResult`
carrying the state as mutated up to the raise point.
-/

namespace ImageViewer

abbrev Path := String

/-- Symbolic PIL image: `opened p` is `Image.open(p)`; `rotated a i` is
`i.rotate(a, expand=True)`; `cropped l t r b i` is `i.crop((l, t, r, b))`. -/
inductive PILImage where
  | opened (path : Path)
  | rotated (angle : Int) (img : PILImage)
  | cropped (left top right bottom : Int) (img : PILImage)
deriving DecidableEq, Repr

/-- Pixel size (width, height) of a symbolic image, given the native size of
each decoded file.  `rotate(a, expand=True)` for the right angles used by the
program (±90) swaps width and height; a crop of box `(l, t, r, b)` has size
`(r - l, b - t)` (PIL pads when the box leaves the source bounds). -/
def PILImage.size (env : Path → Int × Int) : PILImage → Int × Int
  | .opened p => env p
  | .rotated a img =>
      let wh := img.size env
      if a % 180 = 0 then wh else (wh.2, wh.1)
  | .cropped l t r b _ => (r - l, b - t)

/-- Result of running a Python event handler: `ok` is a normal return, `exn`
means an uncaught exception escaped; the payload is the session state as
mutated up to the raise point (nonlocal writes before the raise persist). -/
inductive PyResult (σ : Type) where
  | ok (s : σ)
  | exn (s : σ)
deriving DecidableEq, Repr

/-- The state a handler left behind, whether it returned or raised. -/
def stateOf {σ : Type} : PyResult σ → σ
  | .ok s => s
  | .exn s => s

/-- Whether the handler returned without raising. -/
def PyResult.isOk {σ : Type} : PyResult σ → Bool
  | .ok _ => true
  | .exn _ => false

/-- Mutable state captured by the nested handlers of `main` in src/main.py:
the session variables (`selected_images_paths`, `current_image`,
`current_image_ind`) plus the widget fields the handlers read or write.
`cropper_left/top` belong to the `ft.Stack` named `cropper` and
`crop_gesture_left/top` to the `ft.GestureDetector` named
`crop_gesture_decector` (the control that `change_cropper_position` actually
moves).  `resize_handle_width/height` are the width/height of the
resize-handle `GestureDetector`, unset (`none`) at construction. -/
structure SessionState where
  selected_images_paths : List Path
  current_image : Option PILImage
  current_image_ind : Int
  image_container_src : Option PILImage
  crop_area_width : Int
  crop_area_height : Int
  cropper_left : Option Int
  cropper_top : Option Int
  crop_gesture_left : Option Int
  crop_gesture_top : Option Int
  resize_handle_width : Option Int
  resize_handle_height : Option Int
  cropper_visible : Bool
  crop_gesture_visible : Bool
  swipe_left_btn_visible : Bool
  swipe_right_btn_visible : Bool
  image_container_visible : Bool
  image_block_visible : Bool
  tools_row_visible : Bool
  selected_images_paths_text_visible : Bool
  save_file_btn_disabled : Bool
deriving DecidableEq, Repr

/-- Nominal size of the resize handle (`resize_handle_size = 20`). -/
def resize_handle_size : Int := 20

/-- Widget state as constructed at the bottom of `main` in src/main.py:
no images selected, no current image, crop area 300 by 300, the `cropper`
stack and the gesture detectors never positioned, overlay hidden. -/
def initial_state : SessionState where
  selected_images_paths := []
  current_image := none
  current_image_ind := 0
  image_container_src := none
  crop_area_width := 300
  crop_area_height := 300
  cropper_left := none
  cropper_top := none
  crop_gesture_left := none
  crop_gesture_top := none
  resize_handle_width := none
  resize_handle_height := none
  cropper_visible := false
  crop_gesture_visible := false
  swipe_left_btn_visible := false
  swipe_right_btn_visible := false
  image_container_visible := false
  image_block_visible := false
  tools_row_visible := false
  selected_images_paths_text_visible := true
  save_file_btn_disabled := true

/-- A flet `DragUpdateEvent` as the handlers consume it: the drag delta
(`none` models `e.local_delta.x is None`) and the pointer's local position. -/
structure DragUpdateEvent where
  local_delta : Option (Int × Int)
  local_position : Int × Int
deriving DecidableEq, Repr

/-- Python list indexing `l[i]`: negative indices count from the end;
`none` models an `IndexError`. -/
def pyIndex {α : Type} (l : List α) (i : Int) : Option α :=
  let j : Int := if i < 0 then i + (l.length : Int) else i
  if 0 ≤ j then l[j.toNat]? else none

/-- Final path component, as `pathlib` derives `Path(...).name`. -/
def lastComponentAux (cur : List Char) : List Char → List Char
  | [] => cur.reverse
  | c :: cs => if c = '/' then lastComponentAux [] cs else lastComponentAux (c :: cur) cs

def pathName (p : Path) : String :=
  ⟨lastComponentAux [] p.toList⟩

/-- Index of the last occurrence of a dot, as `str.rfind` computes it. -/
def lastDotIdxAux (i : Nat) (best : Option Nat) : List Char → Option Nat
  | [] => best
  | c :: cs => lastDotIdxAux (i + 1) (if c = '.' then some i else best) cs

/-- Python `pathlib.PurePath.suffix`: the final component's extension,
including the dot; empty when the last dot is absent, leading, or trailing
(`i = name.rfind('.'); name[i:] if 0 < i < len(name) - 1 else ''`). -/
def pathSuffix (p : Path) : String :=
  let name := (pathName p).toList
  match lastDotIdxAux 0 none name with
  | none => ""
  | some i => if 0 < i ∧ i + 1 < name.length then ⟨name.drop i⟩ else ""

/-- Python `str.lower`, restricted to the ASCII range the extension
comparison exercises. -/
def strLower (s : String) : String :=
  ⟨s.toList.map Char.toLower⟩

/-- The extension allow-list of `handle_pick_dir`. -/
def allowed_suffixes : List String := [".jpg", ".jpeg", ".png", ".webp"]

/-- The directory-pick filter in `handle_pick_dir`:
`[path for path in Path(selected_dir).iterdir() if path.suffix.lower() in [...]]`. -/
def filter_image_paths (children : List Path) : List Path :=
  children.filter (fun p => decide (strLower (pathSuffix p) ∈ allowed_suffixes))

/-- `set_image_to_container`: encodes the image and stores it as the
`image_container.src` payload. -/
def set_image_to_container (img : PILImage) (s : SessionState) : SessionState :=
  { s with image_container_src := some img }

/-- `toggle_visibility`: reveals the display widgets after a successful pick;
swipe buttons only when more than one image is selected. -/
def toggle_visibility (s : SessionState) : SessionState :=
  { s with
    swipe_left_btn_visible := decide (1 < s.selected_images_paths.length)
    swipe_right_btn_visible := decide (1 < s.selected_images_paths.length)
    image_container_visible := true
    image_block_visible := true
    tools_row_visible := true
    selected_images_paths_text_visible := false
    save_file_btn_disabled := false }

/-- `update_current_image(image=None)`: with no argument it decodes
`selected_images_paths[0]` (raising IndexError on an empty list, before any
nonlocal write) and resets the index to zero. -/
def update_current_image (s : SessionState) (image : Option PILImage) : PyResult SessionState :=
  match image with
  | none =>
      match pyIndex s.selected_images_paths 0 with
      | none => .exn s
      | some p =>
          .ok (set_image_to_container (.opened p)
                { s with current_image := some (.opened p), current_image_ind := 0 })
  | some img => .ok (set_image_to_container img { s with current_image := some img })

/-- `handle_pick_dir`: `picked = none` models a cancelled dialog
(`if not selected_dir: return`); `some children` is the `iterdir()` listing
of a confirmed directory, which is filtered by extension and installed
wholesale before `update_current_image()` and `toggle_visibility()` run. -/
def handle_pick_dir (s : SessionState) (picked : Option (List Path)) : PyResult SessionState :=
  match picked with
  | none => .ok s
  | some children =>
      let s1 := { s with selected_images_paths := filter_image_paths children }
      match update_current_image s1 none with
      | .exn s2 => .exn s2
      | .ok s2 => .ok (toggle_visibility s2)

/-- `handle_pick_images`: `none` models a dismissed dialog and `some []` an
empty result; both satisfy `if not images: return`.  A non-empty result
replaces `selected_images_paths` with the picked paths wholesale. -/
def handle_pick_images (s : SessionState) (images : Option (List Path)) : PyResult SessionState :=
  match images with
  | none => .ok s
  | some [] => .ok s
  | some (p :: ps) =>
      let s1 := { s with selected_images_paths := p :: ps }
      match update_current_image s1 none with
      | .exn s2 => .exn s2
      | .ok s2 => .ok (toggle_visibility s2)

/-- `apply_left_rotation`: guarded no-op without an image, else
`current_image = current_image.rotate(90, expand=True)` and re-render. -/
def apply_left_rotation (s : SessionState) : SessionState :=
  match s.current_image with
  | none => s
  | some img =>
      set_image_to_container (.rotated 90 img) { s with current_image := some (.rotated 90 img) }

/-- `apply_right_rotation`: guarded no-op without an image, else
`current_image = current_image.rotate(-90, expand=True)` and re-render. -/
def apply_right_rotation (s : SessionState) : SessionState :=
  match s.current_image with
  | none => s
  | some img =>
      set_image_to_container (.rotated (-90) img) { s with current_image := some (.rotated (-90) img) }

/-- The index `swipe_left` selects:
`len(selected_images_paths) - 1` when `current_image_ind <= 0`, else one less. -/
def swipe_left_ind (s : SessionState) : Int :=
  if s.current_image_ind ≤ 0 then (s.selected_images_paths.length : Int) - 1
  else s.current_image_ind - 1

/-- The index `swipe_right` selects:
`0` when `current_image_ind >= len(selected_images_paths) - 1`, else one more. -/
def swipe_right_ind (s : SessionState) : Int :=
  if (s.selected_images_paths.length : Int) - 1 ≤ s.current_image_ind then 0
  else s.current_image_ind + 1

/-- `swipe_left`: writes the new index, then re-decodes that path from disk;
the index write precedes the (possibly raising) list access, so an
IndexError escapes with the index already mutated. -/
def swipe_left (s : SessionState) : PyResult SessionState :=
  match pyIndex s.selected_images_paths (swipe_left_ind s) with
  | none => .exn { s with current_image_ind := swipe_left_ind s }
  | some p =>
      .ok (set_image_to_container (.opened p)
            { s with current_image_ind := swipe_left_ind s, current_image := some (.opened p) })

/-- `swipe_right`: symmetric to `swipe_left`. -/
def swipe_right (s : SessionState) : PyResult SessionState :=
  match pyIndex s.selected_images_paths (swipe_right_ind s) with
  | none => .exn { s with current_image_ind := swipe_right_ind s }
  | some p =>
      .ok (set_image_to_container (.opened p)
            { s with current_image_ind := swipe_right_ind s, current_image := some (.opened p) })

/-- `resize_crop_area`: a degenerate event (missing delta, or the handle's
width still unset) zeroes the delta and seeds the handle control to its
nominal 20-unit size; then the (possibly zeroed) raw delta is added to
`crop_area.width/height` with no clamping in either direction. -/
def resize_crop_area (s : SessionState) (e : DragUpdateEvent) : SessionState :=
  let degen := e.local_delta.isNone || s.resize_handle_width.isNone
  let d := if degen then ((0 : Int), (0 : Int)) else e.local_delta.getD (0, 0)
  let s1 := if degen
            then { s with resize_handle_width := some resize_handle_size,
                          resize_handle_height := some resize_handle_size }
            else s
  { s1 with crop_area_width := s1.crop_area_width + d.1,
            crop_area_height := s1.crop_area_height + d.2 }

/-- `change_cropper_position`: moves `e.control`, which is the
`crop_gesture_decector` (not the inner `cropper` stack).  A first event with
no delta or no prior position seeds the control's corner to the pointer's
local position with a zeroed delta; afterwards the raw delta is added. -/
def change_cropper_position (s : SessionState) (e : DragUpdateEvent) : SessionState :=
  let degen := e.local_delta.isNone || s.crop_gesture_top.isNone
  let d := if degen then ((0 : Int), (0 : Int)) else e.local_delta.getD (0, 0)
  let l0 := if degen then e.local_position.1 else s.crop_gesture_left.getD 0
  let t0 := if degen then e.local_position.2 else s.crop_gesture_top.getD 0
  { s with crop_gesture_left := some (l0 + d.1), crop_gesture_top := some (t0 + d.2) }

/-- `toggle_cropper_visibility`: flips both the `cropper` stack and the
`crop_gesture_decector`. -/
def toggle_cropper_visibility (s : SessionState) : SessionState :=
  { s with cropper_visible := !s.cropper_visible,
           crop_gesture_visible := !s.crop_gesture_visible }

/-- `crop_image`: reads `cropper.top` and `cropper.left` (the inner stack,
whose position no handler ever assigns — `none` there raises a TypeError at
`left + crop_area.width`), crops `current_image` to
`(left, top, left + width, top + height)` (AttributeError when no image is
loaded), renders the cropped image, and flips only the gesture detector's
visibility.  The source never assigns the result back to `current_image`. -/
def crop_image (s : SessionState) : PyResult SessionState :=
  match s.cropper_left, s.cropper_top with
  | some left, some top =>
      match s.current_image with
      | none => .exn s
      | some img =>
          let right := left + s.crop_area_width
          let bottom := top + s.crop_area_height
          .ok { (set_image_to_container (.cropped left top right bottom img) s) with
                crop_gesture_visible := !s.crop_gesture_visible }
  | _, _ => .exn s

/-- Python indexing with a nonnegative in-range index returns the element at
that position. -/
theorem pyIndex_pos {α : Type} (l : List α) (i : Int) (h0 : 0 ≤ i)
    (hlt : i < (l.length : Int)) (d : α) :
    pyIndex l i = some (l.getD i.toNat d) := by
  have h1 : ¬ i < 0 := by omega
  have h2 : i.toNat < l.length := by omega
  unfold pyIndex
  rw [if_neg h1, if_pos h0, List.getElem?_eq_getElem h2, List.getD_eq_getElem l d h2]

/-- C4: on a session with no image loaded (the freshly constructed state),
the rotations are indeed guarded silent no-ops, but `swipe_left` raises an
IndexError after already mutating `current_image_ind` to `-1`, `swipe_right`
raises an IndexError, and `crop_image` raises a TypeError — contrary to the
claim that all five operations are silent no-ops. -/
theorem c4_no_image_guard_eval :
    apply_left_rotation initial_state = initial_state ∧
    apply_right_rotation initial_state = initial_state ∧
    swipe_left initial_state = .exn { initial_state with current_image_ind := -1 } ∧
    swipe_right initial_state = .exn initial_state ∧
    crop_image initial_state = .exn initial_state := by
  decide

/-- C8: a cancelled picker dialog (dismissed directory chooser or file
chooser) returns early and leaves every field of the session state — path
list, index, current image, crop geometry, visibility flags — unchanged. -/
theorem c8_cancel_preserves_state (s : SessionState) :
    handle_pick_dir s none = .ok s ∧ handle_pick_images s none = .ok s :=
  ⟨rfl, rfl⟩

/-- C9: the directory-pick filter keeps exactly the immediate children whose
extension, lowercased, is in the allow-list, preserving enumeration order
(the result is a sublist of the listing), and on the folder
`a.png, b.txt, c.JPG, d.webp` it yields exactly `[a.png, c.JPG, d.webp]`. -/
theorem c9_dir_filter_allowlist (l : List Path) (p : Path) :
    List.Sublist (filter_image_paths l) l ∧
    (p ∈ filter_image_paths l ↔ p ∈ l ∧ strLower (pathSuffix p) ∈ allowed_suffixes) ∧
    filter_image_paths ["a.png", "b.txt", "c.JPG", "d.webp"] = ["a.png", "c.JPG", "d.webp"] := by
  refine ⟨List.filter_sublist _, ?_, by decide⟩
  simp [filter_image_paths, List.mem_filter]

/-- Scenario for the crop-commit claim: pick a single 200-by-200 image, show
the crop overlay, drag it so the gesture detector sits at (10, 10) (the first
move event seeds the position), and resize the crop area from its default
300-by-300 down to 50-by-50 (the first resize event is the degenerate seeding
event, the second applies the delta). -/
def c1_dragged_state : SessionState :=
  resize_crop_area
    (resize_crop_area
      (change_cropper_position
        (toggle_cropper_visibility
          (stateOf (handle_pick_images initial_state (some ["photo.png"]))))
        ⟨none, (10, 10)⟩)
      ⟨some (-250, -250), (0, 0)⟩)
    ⟨some (-250, -250), (0, 0)⟩

/-- The same state with the inner `cropper` stack's position patched to the
geometry the claim assumes, which no handler of the source can produce. -/
def c1_patched_state : SessionState :=
  { c1_dragged_state with cropper_left := some 10, cropper_top := some 10 }

/-- C1: committing the crop does not behave as claimed.  After dragging the
overlay to (10, 10) and resizing it to 50 by 50 over a 200-by-200 image,
`crop_image` raises a TypeError, because it reads `cropper.top`/`cropper.left`
on the inner stack, which no handler ever positions (the drag handler moves
the outer gesture detector).  Even with the stack's geometry patched in,
`crop_image` only renders the 50-by-50 crop into the display source and flips
the detector's visibility — `current_image` is never replaced and stays the
original 200-by-200 decode. -/
theorem c1_crop_commit_eval :
    c1_dragged_state.current_image = some (.opened "photo.png") ∧
    c1_dragged_state.crop_gesture_left = some 10 ∧
    c1_dragged_state.crop_gesture_top = some 10 ∧
    c1_dragged_state.crop_area_width = 50 ∧
    c1_dragged_state.crop_area_height = 50 ∧
    c1_dragged_state.cropper_left = none ∧
    c1_dragged_state.cropper_top = none ∧
    crop_image c1_dragged_state = .exn c1_dragged_state ∧
    crop_image c1_patched_state =
      .ok { c1_patched_state with
            image_container_src := some (.cropped 10 10 60 60 (.opened "photo.png")),
            crop_gesture_visible := false } ∧
    (stateOf (crop_image c1_patched_state)).current_image = some (.opened "photo.png") ∧
    PILImage.size (fun _ => (200, 200)) (.cropped 10 10 60 60 (.opened "photo.png")) = (50, 50) := by
  decide

/-- Session with `a.png` loaded, from which the empty-directory pick of the
C3 scenario is made. -/
def c3_loaded : SessionState :=
  stateOf (handle_pick_images initial_state (some ["a.png"]))

/-- The state the empty-directory pick handler leaves behind when it raises. -/
def c3_after_empty_pick : SessionState :=
  stateOf (handle_pick_dir c3_loaded (some ["b.txt"]))

/-- C3: picking a directory whose listing contains no allowed extension does
replace `image_paths` with the empty list, but the handler then raises an
IndexError (`selected_images_paths[0]` in `update_current_image`), and the
subsequent swipes on the emptied session raise IndexErrors as well
(`swipe_left` additionally leaves `current_image_ind = -1`); only rotation
survives, operating on the stale previous image.  The claim's no-crash
guarantee does not hold. -/
theorem c3_empty_dir_pick_raises :
    filter_image_paths ["b.txt"] = [] ∧
    handle_pick_dir c3_loaded (some ["b.txt"]) = .exn c3_after_empty_pick ∧
    c3_after_empty_pick.selected_images_paths = [] ∧
    c3_after_empty_pick.current_image = some (.opened "a.png") ∧
    swipe_left c3_after_empty_pick =
      .exn { c3_after_empty_pick with current_image_ind := -1 } ∧
    swipe_right c3_after_empty_pick = .exn c3_after_empty_pick ∧
    apply_left_rotation c3_after_empty_pick =
      { c3_after_empty_pick with
        current_image := some (.rotated 90 (.opened "a.png")),
        image_container_src := some (.rotated 90 (.opened "a.png")) } := by
  decide

/-- First resize-drag event from the initial state: degenerate because the
handle's width is still unset, so the crop area is unchanged and the handle
is seeded to 20. -/
def c6_first_resize : SessionState :=
  resize_crop_area initial_state ⟨some (-290, -290), (0, 0)⟩

/-- Second resize-drag event: the delta of (-290, -290) is now applied raw. -/
def c6_second_resize : SessionState :=
  resize_crop_area c6_first_resize ⟨some (-290, -290), (0, 0)⟩

/-- C6 counterexample: two resize-drag events reachable from the initial
state shrink the crop rectangle from its default 300 by 300 to 10 by 10,
below the 20-unit minimum the claim asserts as an invariant. -/
theorem c6_shrink_counterexample :
    c6_first_resize.crop_area_width = 300 ∧
    c6_first_resize.resize_handle_width = some resize_handle_size ∧
    c6_second_resize.crop_area_width = 10 ∧
    c6_second_resize.crop_area_height = 10 ∧
    ¬ (20 ≤ c6_second_resize.crop_area_width ∧ 20 ≤ c6_second_resize.crop_area_height) := by
  decide

/-- What each resize-drag event actually does to the crop rectangle. -/
def resize_spec (s : SessionState) (dx dy px py : Int) : Prop :=
  (resize_crop_area s ⟨some (dx, dy), (px, py)⟩).crop_area_width = s.crop_area_width + dx ∧
  (resize_crop_area s ⟨some (dx, dy), (px, py)⟩).crop_area_height = s.crop_area_height + dy ∧
  (resize_crop_area s ⟨none, (px, py)⟩).crop_area_width = s.crop_area_width ∧
  (resize_crop_area s ⟨none, (px, py)⟩).crop_area_height = s.crop_area_height ∧
  (resize_crop_area s ⟨none, (px, py)⟩).resize_handle_width = some resize_handle_size ∧
  (resize_crop_area { s with resize_handle_width := none }
      ⟨some (dx, dy), (px, py)⟩).crop_area_width = s.crop_area_width

/-- C6 amended: the resize handler adds the raw drag delta to the crop
rectangle's width and height with no minimum clamp (so the rectangle can
shrink below 20 units, as well as grow past the image bounds); only a
degenerate event — a missing delta, or a handle whose size is still unseeded
— is neutralized, leaving the rectangle unchanged and resetting the handle
(not the rectangle) to the 20-unit nominal size. -/
theorem c6_resize_adds_raw_deltas (s : SessionState) (dx dy px py : Int)
    (h : s.resize_handle_width.isSome = true) :
    resize_spec s dx dy px py := by
  obtain ⟨w, hw⟩ := Option.isSome_iff_exists.mp h
  unfold resize_spec resize_crop_area
  simp [hw]

/-- Witness for the amended C6 at the state reached by one degenerate resize
event, with a drag delta of (-290, -290). -/
theorem c6_resize_adds_raw_deltas_witness :
    c6_first_resize.resize_handle_width.isSome = true ∧
    resize_spec c6_first_resize (-290) (-290) 0 0 :=
  ⟨by decide, c6_resize_adds_raw_deltas c6_first_resize (-290) (-290) 0 0 (by decide)⟩

/-- Post-state of a successful `swipe_left` relative to its pre-state:
decrement-or-wrap of the index, path list untouched, index back in range,
and the current image freshly decoded from the path at the new index. -/
def swipe_left_post (s s' : SessionState) : Prop :=
  s'.selected_images_paths = s.selected_images_paths ∧
  s'.current_image_ind =
    (if 0 < s.current_image_ind then s.current_image_ind - 1
     else (s.selected_images_paths.length : Int) - 1) ∧
  0 ≤ s'.current_image_ind ∧
  s'.current_image_ind < (s.selected_images_paths.length : Int) ∧
  s'.current_image = some (.opened (s.selected_images_paths.getD s'.current_image_ind.toNat ""))

/-- Post-state of a successful `swipe_right`: increment-or-wrap, symmetric
to `swipe_left_post`. -/
def swipe_right_post (s s' : SessionState) : Prop :=
  s'.selected_images_paths = s.selected_images_paths ∧
  s'.current_image_ind =
    (if s.current_image_ind < (s.selected_images_paths.length : Int) - 1
     then s.current_image_ind + 1 else 0) ∧
  0 ≤ s'.current_image_ind ∧
  s'.current_image_ind < (s.selected_images_paths.length : Int) ∧
  s'.current_image = some (.opened (s.selected_images_paths.getD s'.current_image_ind.toNat ""))

/-- C2: on a session with a non-empty path list and a valid index,
`swipe_left` decrements the index when it is positive and otherwise wraps to
the last index, `swipe_right` increments and wraps from the last index to 0,
and in both cases the handler returns normally with `current_image` freshly
decoded from the path at the new index — discarding whatever transformed
image was held before. -/
theorem c2_swipe_wrap_redecode (s : SessionState)
    (hne : s.selected_images_paths ≠ [])
    (h0 : 0 ≤ s.current_image_ind)
    (hlt : s.current_image_ind < (s.selected_images_paths.length : Int)) :
    (∃ s', swipe_left s = .ok s' ∧ swipe_left_post s s') ∧
    (∃ s', swipe_right s = .ok s' ∧ swipe_right_post s s') := by
  have hlen : 0 < s.selected_images_paths.length := List.length_pos.mpr hne
  constructor
  · have hi0 : 0 ≤ swipe_left_ind s := by unfold swipe_left_ind; split <;> omega
    have hilt : swipe_left_ind s < (s.selected_images_paths.length : Int) := by
      unfold swipe_left_ind; split <;> omega
    have hp := pyIndex_pos s.selected_images_paths (swipe_left_ind s) hi0 hilt ""
    refine ⟨set_image_to_container
        (.opened (s.selected_images_paths.getD (swipe_left_ind s).toNat ""))
        { s with current_image_ind := swipe_left_ind s,
                 current_image :=
                   some (.opened (s.selected_images_paths.getD (swipe_left_ind s).toNat "")) },
      ?_, ?_⟩
    · unfold swipe_left; rw [hp]
    · refine ⟨rfl, ?_, hi0, hilt, rfl⟩
      show swipe_left_ind s = _
      unfold swipe_left_ind; split <;> split <;> omega
  · have hi0 : 0 ≤ swipe_right_ind s := by unfold swipe_right_ind; split <;> omega
    have hilt : swipe_right_ind s < (s.selected_images_paths.length : Int) := by
      unfold swipe_right_ind; split <;> omega
    have hp := pyIndex_pos s.selected_images_paths (swipe_right_ind s) hi0 hilt ""
    refine ⟨set_image_to_container
        (.opened (s.selected_images_paths.getD (swipe_right_ind s).toNat ""))
        { s with current_image_ind := swipe_right_ind s,
                 current_image :=
                   some (.opened (s.selected_images_paths.getD (swipe_right_ind s).toNat "")) },
      ?_, ?_⟩
    · unfold swipe_right; rw [hp]
    · refine ⟨rfl, ?_, hi0, hilt, rfl⟩
      show swipe_right_ind s = _
      unfold swipe_right_ind; split <;> split <;> omega

/-- A two-image session with the first image current, used to witness the
swipe theorem. -/
def c2_two_image_state : SessionState :=
  { initial_state with
    selected_images_paths := ["a.png", "b.png"],
    current_image := some (.opened "a.png") }

/-- Witness for C2 on the two-image session at index 0: `swipe_left` wraps
to index 1 and `swipe_right` advances to index 1, both re-decoding. -/
theorem c2_swipe_wrap_redecode_witness :
    (c2_two_image_state.selected_images_paths ≠ [] ∧
      0 ≤ c2_two_image_state.current_image_ind ∧
      c2_two_image_state.current_image_ind <
        (c2_two_image_state.selected_images_paths.length : Int)) ∧
    (∃ s', swipe_left c2_two_image_state = .ok s' ∧ swipe_left_post c2_two_image_state s') ∧
    (∃ s', swipe_right c2_two_image_state = .ok s' ∧ swipe_right_post c2_two_image_state s') :=
  ⟨⟨by decide, by decide, by decide⟩,
    c2_swipe_wrap_redecode c2_two_image_state (by decide) (by decide) (by decide)⟩

/-- Post-state of a successful multi-file pick: the picked list replaces
`selected_images_paths` wholesale, the index resets to 0, and the current
image is the decode of the first picked path. -/
def pick_images_post (s : SessionState) (paths : List Path) : Prop :=
  ∃ s', handle_pick_images s (some paths) = .ok s' ∧
    s'.selected_images_paths = paths ∧
    s'.current_image_ind = 0 ∧
    s'.current_image = some (.opened (paths.getD 0 ""))

/-- Post-state of a successful directory pick: the filtered listing replaces
`selected_images_paths` wholesale, the index resets to 0, and the current
image is the decode of the first filtered path. -/
def pick_dir_post (s : SessionState) (children : List Path) : Prop :=
  ∃ s', handle_pick_dir s (some children) = .ok s' ∧
    s'.selected_images_paths = filter_image_paths children ∧
    s'.current_image_ind = 0 ∧
    s'.current_image = some (.opened ((filter_image_paths children).getD 0 ""))

/-- C5: from any prior session state, a non-empty pick result — a non-empty
multi-file selection, or a directory whose filtered listing is non-empty —
replaces the path list wholesale (no merge or append), resets the index to 0,
and decodes the first entry into `current_image`. -/
theorem c5_pick_replaces_session (s : SessionState) (paths children : List Path)
    (hp : paths ≠ []) (hc : filter_image_paths children ≠ []) :
    pick_images_post s paths ∧ pick_dir_post s children := by
  constructor
  · obtain ⟨p, ps, rfl⟩ := List.exists_cons_of_ne_nil hp
    have hp0 : pyIndex (p :: ps) 0 = some p := by simp [pyIndex]
    unfold pick_images_post
    simp only [handle_pick_images, update_current_image, set_image_to_container,
      toggle_visibility, hp0]
    exact ⟨_, rfl, rfl, rfl, rfl⟩
  · obtain ⟨q, qs, hq⟩ := List.exists_cons_of_ne_nil hc
    have hq0 : pyIndex (filter_image_paths children) 0 = some q := by
      rw [hq]; simp [pyIndex]
    unfold pick_dir_post
    simp only [handle_pick_dir, update_current_image, set_image_to_container,
      toggle_visibility, hq0]
    refine ⟨_, rfl, rfl, rfl, ?_⟩
    rw [hq]
    rfl

/-- Witness for C5: picking the single file `x.jpg`, and the directory
listing `a.png, b.txt` whose filtered result is the non-empty `[a.png]`,
both from the freshly constructed state. -/
theorem c5_pick_replaces_session_witness :
    (["x.jpg"] ≠ ([] : List Path) ∧ filter_image_paths ["a.png", "b.txt"] ≠ []) ∧
    (pick_images_post initial_state ["x.jpg"] ∧
      pick_dir_post initial_state ["a.png", "b.txt"]) :=
  ⟨⟨by decide, by decide⟩,
    c5_pick_replaces_session initial_state ["x.jpg"] ["a.png", "b.txt"]
      (by decide) (by decide)⟩

/-- C7: four consecutive `apply_left_rotation` calls on a loaded image leave
`current_image` with exactly the original pixel dimensions, for every native
size environment — rotation is cumulative and the width/height swap of each
90-degree step cancels after four steps. -/
theorem c7_four_left_rotations_size (env : Path → Int × Int) (s : SessionState)
    (img : PILImage) (h : s.current_image = some img) :
    ∃ j,
      (apply_left_rotation (apply_left_rotation
        (apply_left_rotation (apply_left_rotation s)))).current_image = some j ∧
      PILImage.size env j = PILImage.size env img := by
  refine ⟨.rotated 90 (.rotated 90 (.rotated 90 (.rotated 90 img))), ?_, ?_⟩
  · simp [apply_left_rotation, set_image_to_container, h]
  · simp [PILImage.size]

/-- Witness for C7 at a session holding a freshly decoded image, under an
environment giving it a 200 by 100 native size. -/
theorem c7_four_left_rotations_size_witness :
    ({ initial_state with
        current_image := some (.opened "a.png") } : SessionState).current_image =
      some (.opened "a.png") ∧
    ∃ j,
      (apply_left_rotation (apply_left_rotation (apply_left_rotation (apply_left_rotation
        { initial_state with current_image := some (.opened "a.png") })))).current_image =
          some j ∧
      PILImage.size (fun _ => (200, 100)) j =
        PILImage.size (fun _ => (200, 100)) (.opened "a.png") :=
  ⟨rfl, c7_four_left_rotations_size (fun _ => (200, 100))
    { initial_state with current_image := some (.opened "a.png") } (.opened "a.png") rfl⟩

/-- Frame condition of the two rotation handlers: everything except the
current image and its rendered display payload is preserved. -/
def rotation_frame_post (s : SessionState) : Prop :=
    (apply_left_rotation s).selected_images_paths = s.selected_images_paths ∧
    (apply_left_rotation s).current_image_ind = s.current_image_ind ∧
    (apply_left_rotation s).crop_area_width = s.crop_area_width ∧
    (apply_left_rotation s).crop_area_height = s.crop_area_height ∧
    (apply_left_rotation s).cropper_left = s.cropper_left ∧
    (apply_left_rotation s).cropper_top = s.cropper_top ∧
    (apply_left_rotation s).crop_gesture_left = s.crop_gesture_left ∧
    (apply_left_rotation s).crop_gesture_top = s.crop_gesture_top ∧
    (apply_left_rotation s).cropper_visible = s.cropper_visible ∧
    (apply_left_rotation s).crop_gesture_visible = s.crop_gesture_visible ∧
    (apply_right_rotation s).selected_images_paths = s.selected_images_paths ∧
    (apply_right_rotation s).current_image_ind = s.current_image_ind ∧
    (apply_right_rotation s).crop_area_width = s.crop_area_width ∧
    (apply_right_rotation s).crop_area_height = s.crop_area_height ∧
    (apply_right_rotation s).cropper_left = s.cropper_left ∧
    (apply_right_rotation s).cropper_top = s.cropper_top ∧
    (apply_right_rotation s).crop_gesture_left = s.crop_gesture_left ∧
    (apply_right_rotation s).crop_gesture_top = s.crop_gesture_top ∧
    (apply_right_rotation s).cropper_visible = s.cropper_visible ∧
    (apply_right_rotation s).crop_gesture_visible = s.crop_gesture_visible

/-- C10: with an image loaded, both rotation handlers leave the path list,
the index, the crop rectangle's geometry (area size and both overlay
controls' positions) and the overlay's visibility flags unchanged; only the
current image (and its rendered display payload) changes. -/
theorem c10_rotation_frame (s : SessionState) (img : PILImage)
    (h : s.current_image = some img) :
    rotation_frame_post s := by
  unfold rotation_frame_post
  simp [apply_left_rotation, apply_right_rotation, set_image_to_container, h]

/-- Witness for C10 at a session holding a freshly decoded image. -/
theorem c10_rotation_frame_witness :
    ({ initial_state with
        current_image := some (.opened "b.jpg") } : SessionState).current_image =
      some (.opened "b.jpg") ∧
    rotation_frame_post { initial_state with current_image := some (.opened "b.jpg") } :=
  ⟨rfl,
    c10_rotation_frame
      { initial_state with current_image := some (.opened "b.jpg") }
      (.opened "b.jpg") rfl⟩

end ImageViewer
